import Mathlib

/-!
Verification of the sub2api gateway core: the OpenAI `Responses` handler
(`src/backend/internal/handler/openai_gateway_handler.go`), its failover loop,
upstream error mapping, error-log header capture, the `function_call_output`
preflight validation, and the cache token-transfer math exercised by the unit
and integration tests under `src/`.

Functions whose implementation is not shipped under `src/` (only their tests or
callers are) are modelled from the specification; each such definition carries a
doc comment starting with "Modelled from the spec:".
-/

/-- Boolean test that `needle` is an initial segment of `haystack`. Used to state
that an error message mentions a given term. -/
def leadsWith : List Char → List Char → Bool
  | [], _ => true
  | _ :: _, [] => false
  | c :: cs, d :: ds => c == d && leadsWith cs ds

/-- Boolean test that `needle` occurs contiguously somewhere in the list. -/
def occursWithin (needle : List Char) : List Char → Bool
  | [] => leadsWith needle []
  | d :: ds => leadsWith needle (d :: ds) || occursWithin needle ds

/-- String `s` mentions `needle` as a contiguous substring. -/
def mentions (needle s : String) : Bool :=
  occursWithin needle.toList s.toList

/-- Modelled from the spec: the implementation of `TransferCacheTokens` is not under
`src/` (only its unit tests in `src/unnamed/part_001` and the integration tests in
`src/backend/internal/service/cache_transfer_e2e_test.go` are). Spec §4.C Transfer:
with `r = clamp(ratio, 0, 1)` and `moved = round(cr * r)`, the result is
`(cc + moved, cr - moved)`; if `cr <= 0` or `ratio <= 0` the pair is returned
unchanged. Token counts are Go `int` (here `Int`); the ratio, a Go `float64`, is
modelled as a rational; `round` rounds half up. -/
def TransferCacheTokens (cacheCreation cacheRead : Int) ( ratio : ℚ) : Int × Int :=
  if cacheRead ≤ 0 ∨ ratio ≤ 0 then (cacheCreation, cacheRead)
  else
    let r := min ratio 1
    let moved := round ((cacheRead : ℚ) * r)
    (cacheCreation + moved, cacheRead - moved)

/-- Modelled from the spec: the implementation of `ShouldTransferCacheTokens` is not
under `src/` (only its tests in `src/unnamed/part_000` are). Spec §4.C ShouldTransfer:
if `prob <= 0` return false; if `prob >= 1` return true; otherwise sample a uniform
random in `[0,1)` and return `sample < prob`. The random sample is passed explicitly
so the function is pure. -/
def ShouldTransferCacheTokens (probability sample : ℚ) : Bool :=
  if probability ≤ 0 then false
  else if 1 ≤ probability then true
  else decide (sample < probability)

/-- Translation of `mapUpstreamError`
(src/backend/internal/handler/openai_gateway_handler.go, lines 348-363): maps the
upstream HTTP status code to the (client HTTP status, error type, message) triple. -/
def mapUpstreamError (statusCode : Int) : Nat × String × String :=
  if statusCode = 401 then
    (502, "upstream_error", "Upstream authentication failed, please contact administrator")
  else if statusCode = 403 then
    (502, "upstream_error", "Upstream access forbidden, please contact administrator")
  else if statusCode = 429 then
    (429, "rate_limit_error", "Upstream rate limit exceeded, please retry later")
  else if statusCode = 529 then
    (503, "upstream_error", "Upstream service overloaded, please retry later")
  else if statusCode = 500 ∨ statusCode = 502 ∨ statusCode = 503 ∨ statusCode = 504 then
    (502, "upstream_error", "Upstream service temporarily unavailable")
  else
    (502, "upstream_error", "Upstream request failed")

/-- Translation of `handleFailoverExhausted` (lines 343-346): on failover exhaustion
the client receives the mapped status and error type for the last upstream status. -/
def handleFailoverExhausted (statusCode : Int) : Nat × String :=
  ((mapUpstreamError statusCode).1, (mapUpstreamError statusCode).2.1)

/-- Fields of the ErrorLog row relevant to the failover-exhaustion claims. -/
structure ErrorRecord where
  errorType : String
  errorStatusCode : Nat
  upstreamStatusCode : Option Int
deriving DecidableEq

/-- Translation of the failover-exhaustion error recording (lines 224-226 and
296-299): `recordError("upstream_error", status, msg, &lastFailoverStatus, "")`
with `status` mapped by `mapUpstreamError`. -/
def exhaustedErrorRecord (lastFailoverStatus : Int) : ErrorRecord :=
  { errorType := "upstream_error"
    errorStatusCode := (mapUpstreamError lastFailoverStatus).1
    upstreamStatusCode := some lastFailoverStatus }

/-- Translation of the header whitelist of `recordError` (lines 447-455). -/
def headerWhitelist : List String :=
  ["Content-Type", "Accept", "X-Request-ID", "X-Forwarded-For", "X-Real-IP",
   "Authorization", "OpenAI-Beta"]

/-- Translation of the Authorization sanitisation in `recordError` (lines 458-463):
a captured value is stored unchanged except for `Authorization` values longer than 10
(bytes in Go, characters here — the two coincide on the ASCII values at issue), which
are truncated to their first 10 characters followed by `"..."`. -/
def sanitizeHeaderValue (header value : String) : String :=
  if header = "Authorization" ∧ 10 < value.length then value.take 10 ++ "..."
  else value

/-- Translation of the request-header capture loop of `recordError` (lines 446-466):
each whitelisted header with a non-empty value is stored after sanitisation. -/
def captureRequestHeaders (get : String → String) : List (String × String) :=
  headerWhitelist.filterMap fun h =>
    if get h = "" then none else some (h, sanitizeHeaderValue h (get h))

/-- JSON-like values: the shape of the parsed request body (`map[string]any` after
`json.Unmarshal`), restricted to the constructors the claims exercise. -/
inductive JVal where
  | jnull
  | jbool (b : Bool)
  | jnum (n : Int)
  | jstr (s : String)
  | jarr (items : List JVal)
  | jobj (fields : List (String × JVal))

/-- Key lookup in a JSON object; `none` on non-objects and missing keys. -/
def JVal.getField : JVal → String → Option JVal
  | .jobj fields, k => (fields.find? fun f => f.1 == k).map Prod.snd
  | _, _ => none

/-- String-valued field access, mirroring the Go type assertion
`reqBody[k].(string)` which yields the empty string when the key is absent or not a
string. -/
def JVal.getStr (v : JVal) (k : String) : String :=
  match v.getField k with
  | some (.jstr s) => s
  | _ => ""

/-- Items of the body's `input` array (empty when absent or not an array). -/
def JVal.inputItems (body : JVal) : List JVal :=
  match body.getField "input" with
  | some (.jarr items) => items
  | _ => []

/-- Modelled from the spec: `service.HasFunctionCallOutput` is not under `src/` (only
its caller in the handler is). Spec §4.D: whether any `function_call_output` entry
exists in the input. -/
def HasFunctionCallOutput (body : JVal) : Bool :=
  body.inputItems.any fun it => it.getStr "type" == "function_call_output"

/-- Modelled from the spec: `service.FunctionCallOutputCallIDs` is not under `src/`.
The non-empty `call_id` values of the `function_call_output` input items. -/
def FunctionCallOutputCallIDs (body : JVal) : List String :=
  body.inputItems.filterMap fun it =>
    if it.getStr "type" = "function_call_output" ∧ it.getStr "call_id" ≠ "" then
      some (it.getStr "call_id")
    else none

/-- Modelled from the spec: `service.HasFunctionCallOutputMissingCallID` is not under
`src/`. Whether some `function_call_output` item lacks a non-empty `call_id`
(handler line 131 and its 400 message, line 133). -/
def HasFunctionCallOutputMissingCallID (body : JVal) : Bool :=
  body.inputItems.any fun it =>
    it.getStr "type" == "function_call_output" && it.getStr "call_id" == ""

/-- Modelled from the spec: `service.HasToolCallContext` is not under `src/`.
Spec §4.D: whether the input contains a matching `tool_call`/`function_call` item
with the same `call_id` as a `function_call_output` entry. -/
def HasToolCallContext (body : JVal) : Bool :=
  body.inputItems.any fun it =>
    (it.getStr "type" == "tool_call" || it.getStr "type" == "function_call") &&
      (FunctionCallOutputCallIDs body).contains (it.getStr "call_id")

/-- Modelled from the spec: `service.HasItemReferenceForCallIDs` is not under `src/`.
Spec §4.D: whether there is an `item_reference` whose id matches every `call_id`
(vacuity excluded: the call-id list must be non-empty). -/
def HasItemReferenceForCallIDs (body : JVal) (callIDs : List String) : Bool :=
  !callIDs.isEmpty && callIDs.all fun cid =>
    body.inputItems.any fun it =>
      it.getStr "type" == "item_reference" && it.getStr "id" == cid

/-- ASCII whitespace test for `strTrim`. -/
def isWS (c : Char) : Bool :=
  c == ' ' || c == '\t' || c == '\n' || c == '\r'

/-- Whitespace trimming, mirroring Go's `strings.TrimSpace` on the ASCII whitespace
relevant to the handler's checks. -/
def strTrim (s : String) : String :=
  String.mk (((s.toList.dropWhile isWS).reverse.dropWhile isWS).reverse)

/-- Error message of handler line 133 (missing `call_id`). -/
def fcoMissingCallIDMessage : String :=
  "function_call_output requires call_id or previous_response_id; if relying on history, ensure store=true and reuse previous_response_id"

/-- Error message of handler line 139 (no matching `item_reference`). -/
def fcoMissingItemReferenceMessage : String :=
  "function_call_output requires item_reference ids matching each call_id, or previous_response_id/tool_call context; if relying on history, ensure store=true and reuse previous_response_id"

/-- Translation of the `function_call_output` preflight validation of `Responses`
(lines 125-143): when a `function_call_output` entry is present without a non-empty
`previous_response_id` and without tool-call context, the request is rejected with
HTTP 400 and one of the two messages above; otherwise the check passes (`none`). -/
def validateFunctionCallOutput (body : JVal) : Option (Nat × String × String) :=
  if HasFunctionCallOutput body then
    if strTrim (body.getStr "previous_response_id") = "" ∧ ¬ HasToolCallContext body then
      if HasFunctionCallOutputMissingCallID body then
        some (400, "invalid_request_error", fcoMissingCallIDMessage)
      else if ¬ HasItemReferenceForCallIDs body (FunctionCallOutputCallIDs body) then
        some (400, "invalid_request_error", fcoMissingItemReferenceMessage)
      else none
    else none
  else none

/-- Outcome of one `Forward` call as classified by the handler (lines 291-311): an
`UpstreamFailoverError` carrying the upstream status, some other terminal error, or
success. -/
inductive ForwardOutcome where
  | failover (statusCode : Int)
  | terminalError
  | success
deriving DecidableEq

/-- Modelled from the spec: `SelectAccountWithLoadAwareness` is not under `src/` (only
its caller is). Spec §4.B step 1 forms the candidate set from the group's accounts
minus `failed_account_ids` and reports `no_account` when it is empty; the load-aware
and sticky ranking of steps 2-3 does not affect the claims proved here, so the first
non-failed candidate of the pool is chosen. Account ids are Go `int64`. -/
def selectAccount (pool : List Int) (failed : List Int) : Option Int :=
  pool.find? fun a => !failed.contains a

/-- Final result of the failover loop of `Responses` (lines 213-334).
`pendingOutcome` marks a run whose forwarder trace was shorter than the number of
`Forward` calls the loop wanted to make. -/
inductive LoopResult where
  | success
  | terminalError
  | noAccount
  | exhausted (lastStatus : Int)
  | pendingOutcome
deriving DecidableEq

/-- Observable data of one failover-loop run: its result, the number of `Forward`
calls made, and per selector call the failed set passed in together with the account
chosen. -/
structure FailoverRun where
  result : LoopResult
  forwardCalls : Nat
  selections : List (List Int × Int)
deriving DecidableEq

/-- Translation of the failover loop of `Responses` (lines 208-334), with the
forwarder outcomes supplied as a trace. Each iteration selects an account (passing the
current `failed` set), makes one `Forward` call consuming the head of the trace, and on
an `UpstreamFailoverError` adds the account to `failed` (line 294), returns
`failover_exhausted` if `switchCount >= maxAccountSwitches` already held (line 295),
else increments `switchCount` and continues (lines 302-305). When the selector finds
no candidate, `no_account` is returned if nothing failed yet, else
`failover_exhausted` with the last failover status (lines 217-228). -/
def failoverLoopAux (maxAccountSwitches : Int) (pool : List Int)
    (switchCount : Nat) (lastStatus : Int) (failed : List Int) :
    (outcomes : List ForwardOutcome) → FailoverRun
  | [] =>
    match selectAccount pool failed with
    | none =>
      if failed = [] then ⟨.noAccount, 0, []⟩
      else ⟨.exhausted lastStatus, 0, []⟩
    | some a => ⟨.pendingOutcome, 0, [(failed, a)]⟩
  | o :: rest =>
    match selectAccount pool failed with
    | none =>
      if failed = [] then ⟨.noAccount, 0, []⟩
      else ⟨.exhausted lastStatus, 0, []⟩
    | some a =>
      match o with
      | .success => ⟨.success, 1, [(failed, a)]⟩
      | .terminalError => ⟨.terminalError, 1, [(failed, a)]⟩
      | .failover s =>
        if maxAccountSwitches ≤ (switchCount : Int) then
          ⟨.exhausted s, 1, [(failed, a)]⟩
        else
          let r := failoverLoopAux maxAccountSwitches pool (switchCount + 1) s
            (a :: failed) rest
          ⟨r.result, r.forwardCalls + 1, (failed, a) :: r.selections⟩

/-- Entry point of the failover loop with the initial state of lines 209-211:
`switchCount = 0`, `lastFailoverStatus = 0`, empty failed set. -/
def failoverLoop (maxAccountSwitches : Int) (pool : List Int)
    (outcomes : List ForwardOutcome) : FailoverRun :=
  failoverLoopAux maxAccountSwitches pool 0 0 [] outcomes

/-- Gateway section of the configuration, as read by the handler constructor. -/
structure GatewayConfig where
  maxAccountSwitches : Int
deriving DecidableEq

/-- Translation of `NewOpenAIGatewayHandler` (lines 40-47): `maxAccountSwitches` is 3
unless a configuration is present whose `Gateway.MaxAccountSwitches` is positive. -/
def resolveMaxAccountSwitches (cfg : Option GatewayConfig) : Int :=
  match cfg with
  | none => 3
  | some c => if 0 < c.maxAccountSwitches then c.maxAccountSwitches else 3

/-- Environment of one `Responses` request beyond the parsed body: the result of the
wait-queue admission (`IncrementWaitCount`: an error, or whether the queue admitted
the request), whether `AcquireUserSlotWithWait` succeeds, and whether the billing
re-check passes. -/
structure AdmissionEnv where
  incrementWaitResult : Except Unit Bool
  acquireUserSlotOk : Bool
  billingEligible : Bool

/-- Observable data of one `Responses` run: the (status, error type, message) sent to
the client (`(200, "", "")` on success), whether the user concurrency slot was
acquired, how many times `DecrementWaitCount` ran for the user scope, and how many
`Forward` calls were made. -/
structure ResponsesRun where
  response : Nat × String × String
  userSlotAcquired : Bool
  decrementWaitCalls : Nat
  forwardCalls : Nat
deriving DecidableEq

/-- Translation of the `Responses` handler pipeline (lines 83-334) from the parsed
body onward: the model-required check (lines 102-105), the `function_call_output`
validation (125-143), the wait-queue admission (156-175) — on an `IncrementWaitCount`
error the request proceeds and `waitCounted` stays false, on `canWait = false` the
request is rejected with 429 — the user slot acquisition (177-194) with its inline
decrement on success (186-189) and deferred decrement on failure (171-175), the
billing re-check (196-203, client status modelled as a fixed 400 since
`billingErrorDetails` is not under `src/`), and the failover loop (208-334) whose
client response is `mapUpstreamError` on exhaustion. -/
def responsesHandle (body : JVal) (env : AdmissionEnv) (maxAccountSwitches : Int)
    (pool : List Int) (outcomes : List ForwardOutcome) : ResponsesRun :=
  if body.getStr "model" = "" then
    ⟨(400, "invalid_request_error", "model is required"), false, 0, 0⟩
  else
    match validateFunctionCallOutput body with
    | some e => ⟨e, false, 0, 0⟩
    | none =>
      let afterWait : Bool → ResponsesRun := fun waitCounted =>
        if env.acquireUserSlotOk = false then
          ⟨(429, "rate_limit_error", "Concurrency limit exceeded for user, please retry later"),
            false, if waitCounted then 1 else 0, 0⟩
        else
          let decrements : Nat := if waitCounted then 1 else 0
          if env.billingEligible = false then
            ⟨(400, "billing_error", "Billing eligibility check failed"),
              true, decrements, 0⟩
          else
            let run := failoverLoop maxAccountSwitches pool outcomes
            let resp : Nat × String × String :=
              match run.result with
              | .success => (200, "", "")
              | .terminalError => (502, "forward_error", "Forward request failed")
              | .noAccount => (503, "api_error", "No available accounts")
              | .exhausted s => mapUpstreamError s
              | .pendingOutcome => (0, "", "")
            ⟨resp, true, decrements, run.forwardCalls⟩
      match env.incrementWaitResult with
      | .ok false =>
        ⟨(429, "rate_limit_error", "Too many pending requests, please retry later"),
          false, 0, 0⟩
      | .ok true => afterWait true
      | .error _ => afterWait false

/-- Concrete body of spec scenario 6: a `function_call_output` with `call_id` `c1`,
no `previous_response_id`, no tool call, no item reference. -/
def fcoExampleBody : JVal :=
  .jobj [("model", .jstr "gpt-x"),
         ("input", .jarr [.jobj [("type", .jstr "function_call_output"),
                                 ("call_id", .jstr "c1")]])]

/-- Minimal body passing preflight: a model and no `function_call_output`. -/
def plainBody : JVal :=
  .jobj [("model", .jstr "gpt-x")]

/-- Monotonicity of half-up rounding on the rationals. -/
theorem round_mono_rat {x y : ℚ} (h : x ≤ y) : round x ≤ round y := by
  rw [round_eq, round_eq]
  exact Int.floor_mono (by linarith)

/-- The moved amount of the transfer is between 0 and `cacheRead` whenever
`cacheRead` is non-negative and the ratio lies in `[0, 1]`. -/
theorem transfer_moved_bounds (cacheRead : Int) ( ratio : ℚ) (hcr : 0 ≤ cacheRead)
    (hr0 : 0 ≤ ratio) (hr1 : ratio ≤ 1) :
    0 ≤ round ((cacheRead : ℚ) * min ratio 1) ∧
      round ((cacheRead : ℚ) * min ratio 1) ≤ cacheRead := by
  constructor
  · have h0 : (0 : ℚ) ≤ (cacheRead : ℚ) * min ratio 1 :=
      mul_nonneg (by exact_mod_cast hcr) (le_min hr0 (by norm_num))
    have := round_mono_rat h0
    simpa using this
  · have h1 : (cacheRead : ℚ) * min ratio 1 ≤ ((cacheRead : Int) : ℚ) := by
      have := mul_le_mul_of_nonneg_left (min_le_right ratio 1)
        (show (0 : ℚ) ≤ (cacheRead : ℚ) by exact_mod_cast hcr)
      simpa using this
    have := round_mono_rat h1
    simpa [round_intCast] using this

/-- C2: for non-negative `(cc, cr)` and a ratio in `[0, 1]`, `TransferCacheTokens`
returns `(cc', cr')` with `cc' + cr' = cc + cr`, `cc' >= cc` and `cr' >= 0`. -/
theorem transferCacheTokens_conservation (cc cr : Int) ( ratio : ℚ)
    (hcc : 0 ≤ cc) (hcr : 0 ≤ cr) (hr0 : 0 ≤ ratio) (hr1 : ratio ≤ 1) :
    (TransferCacheTokens cc cr ratio).1 + (TransferCacheTokens cc cr ratio).2
        = cc + cr ∧
      cc ≤ (TransferCacheTokens cc cr ratio).1 ∧
      0 ≤ (TransferCacheTokens cc cr ratio).2 := by
  by_cases hedge : cr ≤ 0 ∨ ratio ≤ 0
  · simp [TransferCacheTokens, if_pos hedge, hcr]
  · have hb := transfer_moved_bounds cr ratio hcr hr0 hr1
    simp only [TransferCacheTokens, if_neg hedge]
    refine ⟨by ring, ?_, ?_⟩
    · linarith [hb.1]
    · linarith [hb.2]

/-- Witness for the conservation theorem at `(cc, cr, r) = (200, 800, 3/10)`. -/
theorem transferCacheTokens_conservation_witness :
    (0 : Int) ≤ 200 ∧ (0 : Int) ≤ 800 ∧ (0 : ℚ) ≤ 3 / 10 ∧ (3 / 10 : ℚ) ≤ 1 ∧
      ((TransferCacheTokens 200 800 (3 / 10)).1
            + (TransferCacheTokens 200 800 (3 / 10)).2 = 200 + 800 ∧
        (200 : Int) ≤ (TransferCacheTokens 200 800 (3 / 10)).1 ∧
        (0 : Int) ≤ (TransferCacheTokens 200 800 (3 / 10)).2) :=
  ⟨by norm_num, by norm_num, by norm_num, by norm_num,
    transferCacheTokens_conservation 200 800 (3 / 10)
      (by norm_num) (by norm_num) (by norm_num) (by norm_num)⟩

/-- C3: the edge cases of `TransferCacheTokens` — unchanged when `cr <= 0` or the
ratio is non-positive, full transfer when the ratio is at least 1 (for the
non-negative token counts in the claim's scope; for `cr <= 0` the first-listed edge
case takes precedence and the pair is returned unchanged) — together with the three
literal examples of spec scenario 1. -/
theorem transferCacheTokens_edge_cases :
    (∀ (cc cr : Int) (q : ℚ), cr ≤ 0 ∨ q ≤ 0 →
        TransferCacheTokens cc cr q = (cc, cr)) ∧
    (∀ (cc cr : Int) (q : ℚ), 0 ≤ cr → 1 ≤ q →
        TransferCacheTokens cc cr q = (cc + cr, 0)) ∧
    TransferCacheTokens 200 800 (3 / 10) = (440, 560) ∧
    TransferCacheTokens 0 5000 (1 / 5) = (1000, 4000) ∧
    TransferCacheTokens 100 500 (3 / 2) = (600, 0) := by
  refine ⟨?_, ?_, ?_, ?_, ?_⟩
  · intro cc cr q h
    simp [TransferCacheTokens, if_pos h]
  · intro cc cr q hcr hq
    by_cases h0 : cr ≤ 0
    · have hcr0 : cr = 0 := le_antisymm h0 hcr
      subst hcr0
      simp [TransferCacheTokens]
    · have hcond : ¬ (cr ≤ 0 ∨ q ≤ 0) := by
        push_neg
        exact ⟨lt_of_not_le h0, by linarith⟩
      simp only [TransferCacheTokens, if_neg hcond]
      rw [min_eq_right hq]
      simp [round_intCast]
  · norm_num [TransferCacheTokens]
  · norm_num [TransferCacheTokens]
  · norm_num [TransferCacheTokens]

/-- Witness for the edge-case theorem at `(7, -3, 1/2)` and `(100, 500, 3/2)`. -/
theorem transferCacheTokens_edge_cases_witness :
    ((-3 : Int) ≤ 0 ∨ (1 / 2 : ℚ) ≤ 0) ∧
      TransferCacheTokens 7 (-3) (1 / 2) = (7, -3) ∧
      (0 : Int) ≤ 500 ∧ (1 : ℚ) ≤ 3 / 2 ∧
      TransferCacheTokens 100 500 (3 / 2) = (100 + 500, 0) :=
  ⟨Or.inl (by norm_num),
    transferCacheTokens_edge_cases.1 7 (-3) (1 / 2) (Or.inl (by norm_num)),
    by norm_num, by norm_num,
    transferCacheTokens_edge_cases.2.1 100 500 (3 / 2) (by norm_num) (by norm_num)⟩

/-- C8: `ShouldTransferCacheTokens` returns false for every probability `p <= 0` and
true for every `p >= 1`, independently of the random sample. -/
theorem shouldTransferCacheTokens_extremes :
    (∀ (p sample : ℚ), p ≤ 0 → ShouldTransferCacheTokens p sample = false) ∧
    (∀ (p sample : ℚ), 1 ≤ p → ShouldTransferCacheTokens p sample = true) := by
  constructor
  · intro p sample hp
    simp [ShouldTransferCacheTokens, if_pos hp]
  · intro p sample hp
    have h0 : ¬ p ≤ 0 := by linarith
    simp [ShouldTransferCacheTokens, if_neg h0, if_pos hp]

/-- Witness at `p = -1` and `p = 2` with sample `1/2`. -/
theorem shouldTransferCacheTokens_extremes_witness :
    ((-1 : ℚ) ≤ 0 ∧ ShouldTransferCacheTokens (-1) (1 / 2) = false) ∧
      ((1 : ℚ) ≤ 2 ∧ ShouldTransferCacheTokens 2 (1 / 2) = true) :=
  ⟨⟨by norm_num, shouldTransferCacheTokens_extremes.1 (-1) (1 / 2) (by norm_num)⟩,
    ⟨by norm_num, shouldTransferCacheTokens_extremes.2 2 (1 / 2) (by norm_num)⟩⟩

/-- C7: the upstream-status mapping table — 401 and 403 give HTTP 502
`upstream_error`; 429 gives HTTP 429 `rate_limit_error`; 529 gives HTTP 503
`upstream_error`; 500, 502, 503, 504 give HTTP 502 `upstream_error`. -/
theorem mapUpstreamError_table :
    mapUpstreamError 401 = (502, "upstream_error",
      "Upstream authentication failed, please contact administrator") ∧
    mapUpstreamError 403 = (502, "upstream_error",
      "Upstream access forbidden, please contact administrator") ∧
    mapUpstreamError 429 = (429, "rate_limit_error",
      "Upstream rate limit exceeded, please retry later") ∧
    mapUpstreamError 529 = (503, "upstream_error",
      "Upstream service overloaded, please retry later") ∧
    mapUpstreamError 500 = (502, "upstream_error",
      "Upstream service temporarily unavailable") ∧
    mapUpstreamError 502 = (502, "upstream_error",
      "Upstream service temporarily unavailable") ∧
    mapUpstreamError 503 = (502, "upstream_error",
      "Upstream service temporarily unavailable") ∧
    mapUpstreamError 504 = (502, "upstream_error",
      "Upstream service temporarily unavailable") := by
  decide

/-- C10: every status outside the switch's cases falls to the default branch
`(502, upstream_error, "Upstream request failed")`, so the failover-exhaustion
client status is always one of 429, 502, 503. -/
theorem mapUpstreamError_default :
    (∀ s : Int, s ∉ ([401, 403, 429, 529, 500, 502, 503, 504] : List Int) →
        mapUpstreamError s = (502, "upstream_error", "Upstream request failed")) ∧
    (∀ s : Int, (handleFailoverExhausted s).1 = 429 ∨
        (handleFailoverExhausted s).1 = 502 ∨ (handleFailoverExhausted s).1 = 503) := by
  constructor
  · intro s hs
    simp only [List.mem_cons, List.not_mem_nil, or_false, not_or] at hs
    obtain ⟨h1, h2, h3, h4, h5, h6, h7, h8⟩ := hs
    simp [mapUpstreamError, h1, h2, h3, h4, h5, h6, h7, h8]
  · intro s
    simp only [handleFailoverExhausted, mapUpstreamError]
    split_ifs <;> simp

/-- Witness for the default branch at upstream status 418. -/
theorem mapUpstreamError_default_witness :
    (418 : Int) ∉ ([401, 403, 429, 529, 500, 502, 503, 504] : List Int) ∧
      mapUpstreamError 418 = (502, "upstream_error", "Upstream request failed") :=
  ⟨by decide, mapUpstreamError_default.1 418 (by decide)⟩

/-- C5 counterexample: the captured `Authorization: sk-abcdef0123456789` is stored as
`sk-abcdef0...` — the first TEN characters followed by three ASCII dots — and not as
the claimed `sk-abcdef…` (nine characters plus an ellipsis character). -/
theorem authorizationCapture_counterexample :
    sanitizeHeaderValue "Authorization" "sk-abcdef0123456789" = "sk-abcdef0..." ∧
    sanitizeHeaderValue "Authorization" "sk-abcdef0123456789" ≠ "sk-abcdef…" ∧
    captureRequestHeaders
        (fun h => if h = "Authorization" then "sk-abcdef0123456789" else "")
      = [("Authorization", "sk-abcdef0...")] := by
  decide

/-- C5 amended: a captured `Authorization` value longer than 10 characters is stored
as its first 10 characters followed by `"..."` (shorter values and other whitelisted
headers are stored verbatim); the capture of `sk-abcdef0123456789` is stored as
exactly `sk-abcdef0...`. -/
theorem authorizationCapture_amended :
    (∀ value : String, 10 < value.length →
        sanitizeHeaderValue "Authorization" value = value.take 10 ++ "...") ∧
    (∀ value : String, value.length ≤ 10 →
        sanitizeHeaderValue "Authorization" value = value) ∧
    (∀ header value : String, header ≠ "Authorization" →
        sanitizeHeaderValue header value = value) ∧
    sanitizeHeaderValue "Authorization" "sk-abcdef0123456789" = "sk-abcdef0..." := by
  refine ⟨?_, ?_, ?_, by decide⟩
  · intro v h
    simp [sanitizeHeaderValue, h]
  · intro v h
    simp [sanitizeHeaderValue, not_lt.mpr h]
  · intro hd v h
    simp [sanitizeHeaderValue, h]

/-- Witness for the amended sanitisation at the 19-character example value. -/
theorem authorizationCapture_amended_witness :
    10 < ("sk-abcdef0123456789" : String).length ∧
      sanitizeHeaderValue "Authorization" "sk-abcdef0123456789"
        = ("sk-abcdef0123456789" : String).take 10 ++ "..." :=
  ⟨by decide, authorizationCapture_amended.1 "sk-abcdef0123456789" (by decide)⟩

/-- The account chosen by the selector is never in the failed set it was given. -/
theorem selectAccount_not_failed {pool failed : List Int} {a : Int}
    (h : selectAccount pool failed = some a) : a ∉ failed := by
  have hp := List.find?_some h
  simpa using hp

/-- The failover loop makes at most `maxAccountSwitches - switchCount + 1` `Forward`
calls from any state whose `switchCount` has not yet passed the bound. -/
theorem failoverLoopAux_forward_bound (m : Int) (pool : List Int) :
    ∀ (outcomes : List ForwardOutcome) (switchCount : Nat) (lastStatus : Int)
      (failed : List Int), (switchCount : Int) ≤ m →
      (failoverLoopAux m pool switchCount lastStatus failed outcomes).forwardCalls
          + switchCount ≤ m.toNat + 1 := by
  intro outcomes
  induction outcomes with
  | nil =>
    intro s l failed hs
    cases hsel : selectAccount pool failed with
    | none =>
      simp only [failoverLoopAux, hsel]
      split_ifs <;> simp <;> omega
    | some a =>
      simp only [failoverLoopAux, hsel]
      simp
      omega
  | cons o rest ih =>
    intro s l failed hs
    cases hsel : selectAccount pool failed with
    | none =>
      simp only [failoverLoopAux, hsel]
      split_ifs <;> simp <;> omega
    | some a =>
      cases o with
      | success =>
        simp only [failoverLoopAux, hsel]
        omega
      | terminalError =>
        simp only [failoverLoopAux, hsel]
        omega
      | failover st =>
        by_cases hlim : m ≤ (s : Int)
        · simp only [failoverLoopAux, hsel, if_pos hlim]
          omega
        · have ih' := ih (s + 1) st (a :: failed) (by push_cast; omega)
          simp only [failoverLoopAux, hsel, if_neg hlim]
          omega

/-- Every selector call of a failover-loop run receives a failed set containing
everything failed on entry, and its chosen account is outside that set. -/
theorem failoverLoopAux_selections_sound (m : Int) (pool : List Int) :
    ∀ (outcomes : List ForwardOutcome) (switchCount : Nat) (lastStatus : Int)
      (failed : List Int) (p : List Int × Int),
      p ∈ (failoverLoopAux m pool switchCount lastStatus failed outcomes).selections →
      (∀ x ∈ failed, x ∈ p.1) ∧ p.2 ∉ p.1 := by
  intro outcomes
  induction outcomes with
  | nil =>
    intro s l failed p hp
    cases hsel : selectAccount pool failed with
    | none =>
      simp only [failoverLoopAux, hsel] at hp
      split_ifs at hp <;> simp at hp
    | some a =>
      simp only [failoverLoopAux, hsel, List.mem_singleton] at hp
      subst hp
      exact ⟨fun x hx => hx, selectAccount_not_failed hsel⟩
  | cons o rest ih =>
    intro s l failed p hp
    cases hsel : selectAccount pool failed with
    | none =>
      simp only [failoverLoopAux, hsel] at hp
      split_ifs at hp <;> simp at hp
    | some a =>
      cases o with
      | success =>
        simp only [failoverLoopAux, hsel, List.mem_singleton] at hp
        subst hp
        exact ⟨fun x hx => hx, selectAccount_not_failed hsel⟩
      | terminalError =>
        simp only [failoverLoopAux, hsel, List.mem_singleton] at hp
        subst hp
        exact ⟨fun x hx => hx, selectAccount_not_failed hsel⟩
      | failover st =>
        by_cases hlim : m ≤ (s : Int)
        · simp only [failoverLoopAux, hsel, if_pos hlim, List.mem_singleton] at hp
          subst hp
          exact ⟨fun x hx => hx, selectAccount_not_failed hsel⟩
        · simp only [failoverLoopAux, hsel, if_neg hlim, List.mem_cons] at hp
          cases hp with
          | inl hp =>
            subst hp
            exact ⟨fun x hx => hx, selectAccount_not_failed hsel⟩
          | inr hp =>
            have := ih (s + 1) st (a :: failed) p hp
            exact ⟨fun x hx => this.1 x (List.mem_cons_of_mem a hx), this.2⟩

/-- The accounts chosen across one failover-loop run are pairwise distinct. -/
theorem failoverLoopAux_selections_nodup (m : Int) (pool : List Int) :
    ∀ (outcomes : List ForwardOutcome) (switchCount : Nat) (lastStatus : Int)
      (failed : List Int),
      ((failoverLoopAux m pool switchCount lastStatus failed outcomes).selections.map
        Prod.snd).Nodup := by
  intro outcomes
  induction outcomes with
  | nil =>
    intro s l failed
    cases hsel : selectAccount pool failed <;>
      simp [failoverLoopAux, hsel] <;> split_ifs <;> simp
  | cons o rest ih =>
    intro s l failed
    cases hsel : selectAccount pool failed with
    | none =>
      simp only [failoverLoopAux, hsel]
      split_ifs <;> simp
    | some a =>
      cases o with
      | success => simp [failoverLoopAux, hsel]
      | terminalError => simp [failoverLoopAux, hsel]
      | failover st =>
        by_cases hlim : m ≤ (s : Int)
        · simp [failoverLoopAux, hsel, if_pos hlim]
        · simp only [failoverLoopAux, hsel, if_neg hlim, List.map_cons,
            List.nodup_cons]
          refine ⟨?_, ih (s + 1) st (a :: failed)⟩
          intro hmem
          obtain ⟨p, hp, hpa⟩ := List.mem_map.mp hmem
          have hs := failoverLoopAux_selections_sound m pool rest (s + 1) st
            (a :: failed) p hp
          have ha : a ∈ p.1 := hs.1 a (List.mem_cons_self a failed)
          rw [hpa] at hs
          exact hs.2 (hpa ▸ ha)

/-- The resolved maximum account-switch count is always positive. -/
theorem resolveMaxAccountSwitches_pos (cfg : Option GatewayConfig) :
    0 < resolveMaxAccountSwitches cfg := by
  cases cfg with
  | none => norm_num [resolveMaxAccountSwitches]
  | some c =>
    simp only [resolveMaxAccountSwitches]
    split_ifs with h
    · exact h
    · norm_num

/-- C1: for every configuration, account pool and trace of upstream failover
outcomes, the failover loop makes at most `max_switches + 1` `Forward` calls; the
chosen accounts are pairwise distinct and each selector call's chosen account lies
outside the failed set passed to it (so an account added to the per-request failed
set is never selected again); and `max_switches` resolves to 3 unless a positive
configured value overrides it. -/
theorem failover_loop_invariants (cfg : Option GatewayConfig) (pool : List Int)
    (outcomes : List ForwardOutcome) :
    (failoverLoop (resolveMaxAccountSwitches cfg) pool outcomes).forwardCalls
        ≤ (resolveMaxAccountSwitches cfg).toNat + 1 ∧
    ((failoverLoop (resolveMaxAccountSwitches cfg) pool outcomes).selections.map
        Prod.snd).Nodup ∧
    (∀ p ∈ (failoverLoop (resolveMaxAccountSwitches cfg) pool outcomes).selections,
        p.2 ∉ p.1) ∧
    (cfg = none → resolveMaxAccountSwitches cfg = 3) ∧
    (∀ c, cfg = some c → 0 < c.maxAccountSwitches →
        resolveMaxAccountSwitches cfg = c.maxAccountSwitches) ∧
    (∀ c, cfg = some c → c.maxAccountSwitches ≤ 0 →
        resolveMaxAccountSwitches cfg = 3) := by
  refine ⟨?_, ?_, ?_, ?_, ?_, ?_⟩
  · have hpos := resolveMaxAccountSwitches_pos cfg
    have := failoverLoopAux_forward_bound (resolveMaxAccountSwitches cfg) pool
      outcomes 0 0 [] (by exact_mod_cast le_of_lt hpos)
    simpa [failoverLoop] using this
  · exact failoverLoopAux_selections_nodup (resolveMaxAccountSwitches cfg) pool
      outcomes 0 0 []
  · intro p hp
    exact (failoverLoopAux_selections_sound (resolveMaxAccountSwitches cfg) pool
      outcomes 0 0 [] p hp).2
  · intro h
    subst h
    rfl
  · intro c hc hpos
    subst hc
    simp [resolveMaxAccountSwitches, if_pos hpos]
  · intro c hc hnp
    subst hc
    simp [resolveMaxAccountSwitches, if_neg (not_lt.mpr hnp)]

/-- Witness for the failover-loop invariants at a concrete configuration (override
value 5), pool and trace. -/
theorem failover_loop_invariants_witness :
    (failoverLoop (resolveMaxAccountSwitches (some (GatewayConfig.mk 5))) [1, 2]
          [.failover 500, .success]).forwardCalls
        ≤ (resolveMaxAccountSwitches (some (GatewayConfig.mk 5))).toNat + 1 ∧
      0 < (GatewayConfig.mk 5).maxAccountSwitches ∧
      resolveMaxAccountSwitches (some (GatewayConfig.mk 5)) = 5 :=
  ⟨(failover_loop_invariants (some (GatewayConfig.mk 5)) [1, 2]
      [.failover 500, .success]).1,
    by norm_num,
    (failover_loop_invariants (some (GatewayConfig.mk 5)) [1, 2]
      [.failover 500, .success]).2.2.2.2.1 (GatewayConfig.mk 5) rfl (by norm_num)⟩

/-- C4 counterexample: with `max_switches = 3`, upstream status 529 on three
successive attempts against the distinct accounts 1, 2, 3 and a fourth account
available, the handler performs a FOURTH `Forward` call (its `switchCount` check runs
only after the next forward fails), contradicting the claim that the fourth attempt
is not performed. -/
theorem exhaustion529_counterexample :
    failoverLoop 3 [1, 2, 3, 4]
        [.failover 529, .failover 529, .failover 529, .failover 529]
      = ⟨.exhausted 529, 4, [([], 1), ([1], 2), ([2, 1], 3), ([3, 2, 1], 4)]⟩ := by
  decide

/-- C4 amended: after three 529 failovers against distinct accounts with
`max_switches = 3`, a fourth attempt is performed when a further account is available
(the loop is bounded by `max_switches + 1 = 4` attempts) and is not performed only
when account selection finds no remaining candidate; in either case the client
receives HTTP 503 with error type `upstream_error` and the recorded ErrorLog carries
`upstream_status_code = 529` and `error_type = upstream_error`. -/
theorem exhaustion529_amended :
    failoverLoop 3 [1, 2, 3] [.failover 529, .failover 529, .failover 529]
      = ⟨.exhausted 529, 3, [([], 1), ([1], 2), ([2, 1], 3)]⟩ ∧
    failoverLoop 3 [1, 2, 3, 4]
        [.failover 529, .failover 529, .failover 529, .failover 529]
      = ⟨.exhausted 529, 4, [([], 1), ([1], 2), ([2, 1], 3), ([3, 2, 1], 4)]⟩ ∧
    handleFailoverExhausted 529 = (503, "upstream_error") ∧
    exhaustedErrorRecord 529
      = { errorType := "upstream_error", errorStatusCode := 503,
          upstreamStatusCode := some 529 } := by
  decide

/-- C6: a body with a `function_call_output` entry, no non-empty
`previous_response_id`, no matching `tool_call`/`function_call` item and no
`item_reference` matching every `call_id` (and a present `model`, without which the
earlier model-required check fires instead) is rejected with HTTP 400
`invalid_request_error`, with a message naming `call_id`, before any slot is acquired
and before any `Forward` call. -/
theorem functionCallOutput_validation (body : JVal) (env : AdmissionEnv) (m : Int)
    (pool : List Int) (outcomes : List ForwardOutcome)
    (hmodel : body.getStr "model" ≠ "")
    (hfco : HasFunctionCallOutput body = true)
    (hprev : strTrim (body.getStr "previous_response_id") = "")
    (htc : HasToolCallContext body = false)
    (href : HasItemReferenceForCallIDs body (FunctionCallOutputCallIDs body)
      = false) :
    (responsesHandle body env m pool outcomes).response.1 = 400 ∧
    (responsesHandle body env m pool outcomes).response.2.1
        = "invalid_request_error" ∧
    mentions "call_id" (responsesHandle body env m pool outcomes).response.2.2
        = true ∧
    (responsesHandle body env m pool outcomes).userSlotAcquired = false ∧
    (responsesHandle body env m pool outcomes).forwardCalls = 0 := by
  have hval : ∃ msg, validateFunctionCallOutput body
      = some (400, "invalid_request_error", msg) ∧ mentions "call_id" msg = true := by
    by_cases hmc : HasFunctionCallOutputMissingCallID body = true
    · exact ⟨fcoMissingCallIDMessage,
        by simp [validateFunctionCallOutput, hfco, hprev, htc, hmc], by decide⟩
    · exact ⟨fcoMissingItemReferenceMessage,
        by simp [validateFunctionCallOutput, hfco, hprev, htc, hmc, href], by decide⟩
  obtain ⟨msg, hv, hm⟩ := hval
  simp [responsesHandle, hmodel, hv, hm]

/-- Witness for the validation theorem at spec scenario 6's body. -/
theorem functionCallOutput_validation_witness :
    (fcoExampleBody.getStr "model" ≠ "" ∧
      HasFunctionCallOutput fcoExampleBody = true ∧
      strTrim (fcoExampleBody.getStr "previous_response_id") = "" ∧
      HasToolCallContext fcoExampleBody = false ∧
      HasItemReferenceForCallIDs fcoExampleBody
        (FunctionCallOutputCallIDs fcoExampleBody) = false) ∧
    ((responsesHandle fcoExampleBody ⟨Except.ok true, true, true⟩ 3 [] []).response.1
        = 400 ∧
      (responsesHandle fcoExampleBody ⟨Except.ok true, true, true⟩ 3 [] []).response.2.1
        = "invalid_request_error" ∧
      mentions "call_id"
        (responsesHandle fcoExampleBody ⟨Except.ok true, true, true⟩ 3 [] []).response.2.2
        = true ∧
      (responsesHandle fcoExampleBody ⟨Except.ok true, true, true⟩ 3 [] []).userSlotAcquired
        = false ∧
      (responsesHandle fcoExampleBody ⟨Except.ok true, true, true⟩ 3 [] []).forwardCalls
        = 0) :=
  ⟨⟨by decide, by decide, by decide, by decide, by decide⟩,
    functionCallOutput_validation fcoExampleBody ⟨Except.ok true, true, true⟩ 3 [] []
      (by decide) (by decide) (by decide) (by decide) (by decide)⟩

/-- C9: when `IncrementWaitCount` itself fails, the handler proceeds with the request
— the run is observably identical to one where the queue admitted the request —
except that no `DecrementWaitCount` call is ever made, because the wait was never
counted. -/
theorem incrementWait_error_proceeds (body : JVal) (env : AdmissionEnv) (m : Int)
    (pool : List Int) (outcomes : List ForwardOutcome)
    (herr : env.incrementWaitResult = Except.error ()) :
    (responsesHandle body env m pool outcomes).decrementWaitCalls = 0 ∧
    (responsesHandle body env m pool outcomes).response
      = (responsesHandle body { env with incrementWaitResult := Except.ok true }
          m pool outcomes).response ∧
    (responsesHandle body env m pool outcomes).userSlotAcquired
      = (responsesHandle body { env with incrementWaitResult := Except.ok true }
          m pool outcomes).userSlotAcquired ∧
    (responsesHandle body env m pool outcomes).forwardCalls
      = (responsesHandle body { env with incrementWaitResult := Except.ok true }
          m pool outcomes).forwardCalls := by
  by_cases hb : body.getStr "model" = ""
  · simp [responsesHandle, hb]
  · cases hv : validateFunctionCallOutput body with
    | some e => simp [responsesHandle, hb, hv]
    | none =>
      simp only [responsesHandle, hb, hv, herr, if_neg]
      split_ifs <;> simp

/-- Witness for the wait-count-error theorem at a minimal body and environment. -/
theorem incrementWait_error_proceeds_witness :
    (AdmissionEnv.mk (Except.error ()) true true).incrementWaitResult
        = Except.error () ∧
      ((responsesHandle plainBody ⟨Except.error (), true, true⟩ 3 [] []).decrementWaitCalls
          = 0 ∧
        (responsesHandle plainBody ⟨Except.error (), true, true⟩ 3 [] []).response
          = (responsesHandle plainBody
              { AdmissionEnv.mk (Except.error ()) true true with
                  incrementWaitResult := Except.ok true } 3 [] []).response ∧
        (responsesHandle plainBody ⟨Except.error (), true, true⟩ 3 [] []).userSlotAcquired
          = (responsesHandle plainBody
              { AdmissionEnv.mk (Except.error ()) true true with
                  incrementWaitResult := Except.ok true } 3 [] []).userSlotAcquired ∧
        (responsesHandle plainBody ⟨Except.error (), true, true⟩ 3 [] []).forwardCalls
          = (responsesHandle plainBody
              { AdmissionEnv.mk (Except.error ()) true true with
                  incrementWaitResult := Except.ok true } 3 [] []).forwardCalls) :=
  ⟨rfl, incrementWait_error_proceeds plainBody ⟨Except.error (), true, true⟩ 3 [] []
    rfl⟩
